import Mathlib

/-!
Shallow embedding of the GPIO LED-pattern program
(`src/ECE595RL_GPIO/GPIO/main.c`, which also contains the inlined
`GPIO.c` driver).  Registers are 8-bit values modelled as `Nat`; the
switch input `P10->IN` is modelled as an environment oracle
`env : Nat → Nat` giving the raw register value at the k-th read, and
every visible effect (output-register write, blocking delay, switch
sample) is recorded in an event trace.
-/

namespace Gpio

/-! ### Constants from GPIO.c -/

def RED_LED_OFF : Nat := 0x00
def RED_LED_ON : Nat := 0x01
def RGB_LED_OFF : Nat := 0x00
def RGB_LED_RED : Nat := 0x01
def RGB_LED_GREEN : Nat := 0x02
def RGB_LED_YELLOW : Nat := 0x03
def RGB_LED_BLUE : Nat := 0x04
def RGB_LED_PINK : Nat := 0x05
def RGB_LED_SKY_BLUE : Nat := 0x06
def RGB_LED_WHITE : Nat := 0x07
def PMOD_8LD_ALL_OFF : Nat := 0x00
def PMOD_8LD_ALL_ON : Nat := 0xFF

/-! ### Register-level operations (GPIO.c) -/

/-- `P1->OUT = (P1->OUT & 0xFE) | led_value;` (function `LED1_Output`). -/
def LED1_Output (led_value p1out : Nat) : Nat := (p1out &&& 0xFE) ||| led_value

/-- `P1->OUT & 0x01` (function `LED1_Status`). -/
def LED1_Status (p1out : Nat) : Nat := p1out &&& 0x01

/-- `P2->OUT = (P2->OUT & 0xF8) | led_value;` (function `LED2_Output`). -/
def LED2_Output (led_value p2out : Nat) : Nat := (p2out &&& 0xF8) ||| led_value

/-- `P2->OUT & 0x07` (function `LED2_Status`). -/
def LED2_Status (p2out : Nat) : Nat := p2out &&& 0x07

/-- `P10->IN & 0xF` (function `Get_PMOD_SWT_Status`), applied to the raw
register value supplied by the environment. -/
def Get_PMOD_SWT_Status (p10in : Nat) : Nat := p10in &&& 0xF

/-- `P1->IN & 0x12` (function `Get_Buttons_Status`). -/
def Get_Buttons_Status (p1in : Nat) : Nat := p1in &&& 0x12

/-! ### Machine state, events and traces -/

/-- The output registers the program writes: `P1->OUT` (onboard red LED,
bit 0), `P2->OUT` (tri-color RGB LED, bits 0..2) and `P9->OUT`
(PMOD 8LD output bank). -/
structure GpioState where
  p1out : Nat
  p2out : Nat
  p9out : Nat
deriving DecidableEq, Repr

/-- A visible effect: a write to one of the three output registers (the
value is the register's new contents), a blocking delay
(`Clock_Delay1ms`), or an in-loop switch sample (`Get_PMOD_SWT_Status`,
the value is the masked result). -/
inductive Event where
  | writeP1 (v : Nat)
  | writeP2 (v : Nat)
  | writeP9 (v : Nat)
  | delay (ms : Nat)
  | sample (v : Nat)
deriving DecidableEq, Repr

/-- Register state, the trace of events so far, and the index of the
next switch-register read served by the environment. -/
structure Sys where
  st : GpioState
  trace : List Event
  idx : Nat
deriving DecidableEq, Repr

/-- Effect of a call `LED1_Output(v)` on the machine. -/
def led1Write (v : Nat) (s : Sys) : Sys :=
  ⟨{ s.st with p1out := LED1_Output v s.st.p1out },
   s.trace ++ [Event.writeP1 (LED1_Output v s.st.p1out)], s.idx⟩

/-- Effect of a call `LED2_Output(v)` on the machine. -/
def led2Write (v : Nat) (s : Sys) : Sys :=
  ⟨{ s.st with p2out := LED2_Output v s.st.p2out },
   s.trace ++ [Event.writeP2 (LED2_Output v s.st.p2out)], s.idx⟩

/-- Effect of a call `PMOD_8LD_Output(v)`: `P9->OUT = v`. -/
def pmodWrite (v : Nat) (s : Sys) : Sys :=
  ⟨{ s.st with p9out := v }, s.trace ++ [Event.writeP9 v], s.idx⟩

/-- Effect of a call `Clock_Delay1ms(ms)`. -/
def delayMs (ms : Nat) (s : Sys) : Sys :=
  ⟨s.st, s.trace ++ [Event.delay ms], s.idx⟩

/-- Effect of a call `Get_PMOD_SWT_Status()`: reads the next raw value
from the environment oracle, masks it with `0xF`, records the sample. -/
def swtSample (env : Nat → Nat) (s : Sys) : Nat × Sys :=
  (Get_PMOD_SWT_Status (env s.idx),
   ⟨s.st, s.trace ++ [Event.sample (Get_PMOD_SWT_Status (env s.idx))], s.idx + 1⟩)

/-! ### The five display routines and the controller (main.c) -/

/-- `LED_Pattern_1(button_status)`: a 4-way `switch` on the button code
with no `default` case (unmatched codes do nothing). -/
def LED_Pattern_1 (button_status : Nat) (s : Sys) : Sys :=
  if button_status = 0x00 then
    -- Button 1 and Button 2 are pressed
    let s := pmodWrite PMOD_8LD_ALL_OFF s
    let s := led1Write RED_LED_ON s
    let s := led2Write RGB_LED_GREEN s
    let s := delayMs 1000 s
    let s := led1Write RED_LED_OFF s
    let s := led2Write RGB_LED_OFF s
    delayMs 1000 s
  else if button_status = 0x10 then
    -- Button 1 pressed, Button 2 not pressed
    let s := led1Write RED_LED_ON s
    let s := led2Write RGB_LED_OFF s
    pmodWrite 0x55 s
  else if button_status = 0x02 then
    -- Button 1 not pressed, Button 2 pressed
    let s := led1Write RED_LED_OFF s
    let s := led2Write RGB_LED_PINK s
    pmodWrite 0xAA s
  else if button_status = 0x12 then
    -- Button 1 and Button 2 are not pressed
    let s := led1Write RED_LED_OFF s
    let s := led2Write RGB_LED_OFF s
    pmodWrite PMOD_8LD_ALL_ON s
  else s

/-- The `for` loop of `LED_Pattern_2`: `for (led_count = 0; led_count <= 0xFF;
led_count++) { write; delay 100; sample; if (sample != 0x01) break; }`. -/
def pattern2Loop (env : Nat → Nat) (led_count : Nat) (s : Sys) : Sys :=
  if h : led_count ≤ 0xFF then
    let s := pmodWrite led_count s
    let s := delayMs 100 s
    let p := swtSample env s
    if p.1 ≠ 0x01 then p.2
    else pattern2Loop env (led_count + 1) p.2
  else s
termination_by 0x100 - led_count
decreasing_by simp_wf; omega

/-- `LED_Pattern_2()`. -/
def LED_Pattern_2 (env : Nat → Nat) (s : Sys) : Sys :=
  let s := led1Write RED_LED_ON s
  let s := led2Write RGB_LED_RED s
  pattern2Loop env 0 s

/-- The `for` loop of `LED_Pattern_3`: `for (led_count = 0xFF; led_count >= 0;
led_count--) { write; delay 100; sample; if (sample != 0x02) break; }`.
The C loop variable is an `int` that exits at `-1`; here the loop stops
after the `led_count = 0` iteration, which is the same behaviour. -/
def pattern3Loop (env : Nat → Nat) (led_count : Nat) (s : Sys) : Sys :=
  let s' := pmodWrite led_count s
  let s' := delayMs 100 s'
  let p := swtSample env s'
  if p.1 ≠ 0x02 then p.2
  else if h : led_count = 0 then p.2
  else pattern3Loop env (led_count - 1) p.2
termination_by led_count
decreasing_by simp_wf; omega

/-- `LED_Pattern_3()`. -/
def LED_Pattern_3 (env : Nat → Nat) (s : Sys) : Sys :=
  let s := led1Write RED_LED_OFF s
  let s := led2Write RGB_LED_BLUE s
  pattern3Loop env 0xFF s

/-- The `while(1)` loop of `LED_Pattern_4`, with explicit fuel because the
C loop runs forever while the sampled switch code stays `0x04`;
`none` means the fuel ran out before the loop exited. -/
def pattern4Loop (env : Nat → Nat) : Nat → Sys → Option Sys
  | 0, _ => none
  | fuel + 1, s =>
    let s := pmodWrite PMOD_8LD_ALL_ON s
    let s := led1Write RED_LED_ON s
    let s := led2Write RGB_LED_BLUE s
    let s := delayMs 1000 s
    let s := pmodWrite PMOD_8LD_ALL_OFF s
    let s := led1Write RED_LED_OFF s
    let s := led2Write RGB_LED_OFF s
    let s := delayMs 1000 s
    let p := swtSample env s
    if p.1 ≠ 0x04 then some p.2
    else pattern4Loop env fuel p.2

/-- `LED_Pattern_4()`. -/
def LED_Pattern_4 (env : Nat → Nat) (fuel : Nat) (s : Sys) : Option Sys :=
  pattern4Loop env fuel s

/-- The `for` loop of `LED_Pattern_5`: `for (led_count = 0x01;
led_count <= 128; led_count = led_count * 2) { write; delay 500; sample;
if (sample != 0x08) break; }`.  The guard `0 < led_count` is added for
termination; the C loop is only ever entered with `led_count = 1`, and
every reachable value `1, 2, 4, ..., 128` is positive, so the guard is
true at every call the program makes. -/
def pattern5Loop (env : Nat → Nat) (led_count : Nat) (s : Sys) : Sys :=
  if h : 0 < led_count ∧ led_count ≤ 128 then
    let s' := pmodWrite led_count s
    let s' := delayMs 500 s'
    let p := swtSample env s'
    if p.1 ≠ 0x08 then p.2
    else pattern5Loop env (led_count * 2) p.2
  else s
termination_by 129 - led_count
decreasing_by simp_wf; omega

/-- `LED_Pattern_5()`. -/
def LED_Pattern_5 (env : Nat → Nat) (s : Sys) : Sys :=
  let s := led1Write RED_LED_OFF s
  let s := led2Write RGB_LED_OFF s
  pattern5Loop env 0x01 s

/-- `LED_Controller(button_status, switch_status)`: a 5-way `switch` on
the switch code whose `default` case runs `LED_Pattern_1`.  The fuel is
only consumed by `LED_Pattern_4`'s unbounded loop. -/
def LED_Controller (button_status switch_status : Nat) (env : Nat → Nat)
    (fuel : Nat) (s : Sys) : Option Sys :=
  if switch_status = 0x00 then some (LED_Pattern_1 button_status s)
  else if switch_status = 0x01 then some (LED_Pattern_2 env s)
  else if switch_status = 0x02 then some (LED_Pattern_3 env s)
  else if switch_status = 0x04 then LED_Pattern_4 env fuel s
  else if switch_status = 0x08 then some (LED_Pattern_5 env s)
  else some (LED_Pattern_1 button_status s)

/-- A concrete machine to instantiate theorems on: all output registers
zero, empty trace, environment index 0. -/
def initSys : Sys := ⟨⟨0, 0, 0⟩, [], 0⟩

/-- `evBlocks f n = f 0 ++ f 1 ++ ... ++ f (n - 1)`: the trace produced
by `n` loop iterations whose `k`-th iteration emits the events `f k`. -/
def evBlocks (f : Nat → List Event) : Nat → List Event
  | 0 => []
  | n + 1 => f 0 ++ evBlocks (fun k => f (k + 1)) n

/-! ### Generic bitwise and trace lemmas -/

theorem evBlocks_congr : ∀ (n : Nat) (f g : Nat → List Event),
    (∀ k, k < n → f k = g k) → evBlocks f n = evBlocks g n
  | 0, _, _, _ => rfl
  | n + 1, f, g, h => by
    simp only [evBlocks]
    rw [h 0 (Nat.succ_pos n),
      evBlocks_congr n (fun k => f (k + 1)) (fun k => g (k + 1))
        (fun k hk => h (k + 1) (by omega))]

theorem or_and_distrib (a b c : Nat) : (a ||| b) &&& c = (a &&& c) ||| (b &&& c) := by
  apply Nat.eq_of_testBit_eq
  intro i
  simp only [Nat.testBit_and, Nat.testBit_or]
  cases a.testBit i <;> cases b.testBit i <;> cases c.testBit i <;> rfl

/-- Writing value `v` into the masked field and re-reading the
complementary mask `M` leaves the masked part unchanged. -/
theorem masked_or_and (x v M : Nat) (h : v &&& M = 0) :
    ((x &&& M) ||| v) &&& M = x &&& M := by
  rw [or_and_distrib, h, Nat.or_zero, Nat.and_assoc, Nat.and_self]

theorem and_fe_or_one (x : Nat) : ((x &&& 0xFE) ||| 0x01) &&& 0xFE = x &&& 0xFE :=
  masked_or_and x 0x01 0xFE (by decide)

theorem and_f8_or_two (x : Nat) : ((x &&& 0xF8) ||| 0x02) &&& 0xF8 = x &&& 0xF8 :=
  masked_or_and x 0x02 0xF8 (by decide)

theorem and_f8_or_four (x : Nat) : ((x &&& 0xF8) ||| 0x04) &&& 0xF8 = x &&& 0xF8 :=
  masked_or_and x 0x04 0xF8 (by decide)

theorem and_fe_and_fe (x : Nat) : (x &&& 0xFE) &&& 0xFE = x &&& 0xFE := by
  rw [Nat.and_assoc, show (0xFE &&& 0xFE : Nat) = 0xFE by decide]

theorem and_f8_and_f8 (x : Nat) : (x &&& 0xF8) &&& 0xF8 = x &&& 0xF8 := by
  rw [Nat.and_assoc, show (0xF8 &&& 0xF8 : Nat) = 0xF8 by decide]

/-- Reading the tri-color status after `LED2_Output v` yields `v` when
`v` fits in the 3-bit field. -/
theorem led2_status_write (b v : Nat) (hv : v &&& 0x07 = v) :
    LED2_Status ((b &&& 0xF8) ||| v) = v := by
  unfold LED2_Status
  rw [or_and_distrib, Nat.and_assoc,
    show (0xF8 &&& 0x07 : Nat) = 0 by decide, Nat.and_zero, Nat.zero_or, hv]

/-- Reading the onboard-LED status after `LED1_Output v` yields `v` when
`v` fits in the 1-bit field. -/
theorem led1_status_write (a v : Nat) (hv : v &&& 0x01 = v) :
    LED1_Status ((a &&& 0xFE) ||| v) = v := by
  unfold LED1_Status
  rw [or_and_distrib, Nat.and_assoc,
    show (0xFE &&& 0x01 : Nat) = 0 by decide, Nat.and_zero, Nat.zero_or, hv]

/-! ### Unfolding and run lemmas for the pattern loops -/

theorem pattern2Loop_step (env : Nat → Nat) (c : Nat) (s : Sys) (h : c ≤ 0xFF) :
    pattern2Loop env c s =
      if Get_PMOD_SWT_Status (env s.idx) ≠ 0x01 then
        ⟨{ s.st with p9out := c },
         s.trace ++ [Event.writeP9 c, Event.delay 100,
           Event.sample (Get_PMOD_SWT_Status (env s.idx))], s.idx + 1⟩
      else
        pattern2Loop env (c + 1)
          ⟨{ s.st with p9out := c },
           s.trace ++ [Event.writeP9 c, Event.delay 100,
             Event.sample (Get_PMOD_SWT_Status (env s.idx))], s.idx + 1⟩ := by
  rw [pattern2Loop, dif_pos h]
  simp [pmodWrite, delayMs, swtSample, List.append_assoc]

theorem pattern2Loop_stop (env : Nat → Nat) (c : Nat) (s : Sys) (h : ¬ c ≤ 0xFF) :
    pattern2Loop env c s = s := by
  rw [pattern2Loop, dif_neg h]

/-- When every resample reads switch code 0x01, the Pattern2 loop runs
to its bound: starting at `led_count = c` with `n = 0x100 - c` steps
remaining, it emits one write/delay/sample block per remaining count
value and consumes exactly `n` resamples. -/
theorem pattern2Loop_run (env : Nat → Nat) (h : ∀ k, Get_PMOD_SWT_Status (env k) = 0x01) :
    ∀ n c s, c + n = 0x100 → 0 < n →
    pattern2Loop env c s =
      ⟨{ s.st with p9out := 0xFF },
       s.trace ++ evBlocks (fun k =>
         [Event.writeP9 (c + k), Event.delay 100, Event.sample 0x01]) n,
       s.idx + n⟩ := by
  intro n
  induction n with
  | zero => intro c s hc hn; omega
  | succ n ih =>
    intro c s hc _
    rw [pattern2Loop_step env c s (by omega), h s.idx]
    simp only [ne_eq, not_true_eq_false, if_false]
    rcases Nat.eq_zero_or_pos n with rfl | hn
    · rw [pattern2Loop_stop env (c + 1) _ (by omega)]
      have hc' : c = 0xFF := by omega
      subst hc'
      simp [evBlocks]
    · have he : evBlocks (fun k =>
            [Event.writeP9 (c + 1 + k), Event.delay 100, Event.sample 0x01]) n
          = evBlocks (fun k =>
            [Event.writeP9 (c + (k + 1)), Event.delay 100, Event.sample 0x01]) n :=
        evBlocks_congr n _ _ (fun k hk => by rw [Nat.add_assoc, Nat.add_comm 1 k])
      rw [ih (c + 1) ⟨{ s.st with p9out := c },
          s.trace ++ [Event.writeP9 c, Event.delay 100, Event.sample 0x01],
          s.idx + 1⟩ (by omega) hn]
      rw [Sys.mk.injEq]
      refine ⟨rfl, ?_, by show s.idx + 1 + n = s.idx + (n + 1); omega⟩
      rw [he]
      simp [evBlocks, List.append_assoc]

/-- For any environment, the Pattern2 loop makes at least one and at
most `n` full iterations; every iteration emits its output write and its
delay first and then takes exactly one switch sample, and the loop
consumes one resample per iteration. -/
theorem pattern2Loop_shape (env : Nat → Nat) :
    ∀ n c s, c + n = 0x100 → 0 < n →
    ∃ m, 0 < m ∧ m ≤ n ∧
      pattern2Loop env c s =
        ⟨{ s.st with p9out := c + m - 1 },
         s.trace ++ evBlocks (fun k => [Event.writeP9 (c + k), Event.delay 100,
           Event.sample (Get_PMOD_SWT_Status (env (s.idx + k)))]) m,
         s.idx + m⟩ := by
  intro n
  induction n with
  | zero => intro c s hc hn; omega
  | succ n ih =>
    intro c s hc _
    rw [pattern2Loop_step env c s (by omega)]
    by_cases hsw : Get_PMOD_SWT_Status (env s.idx) ≠ 0x01
    · refine ⟨1, by omega, by omega, ?_⟩
      rw [if_pos hsw]
      simp [evBlocks]
    · rw [if_neg hsw]
      rcases Nat.eq_zero_or_pos n with rfl | hn
      · refine ⟨1, by omega, by omega, ?_⟩
        rw [pattern2Loop_stop env (c + 1) _ (by omega)]
        simp [evBlocks]
      · obtain ⟨m, hm0, hmn, heq⟩ := ih (c + 1)
          ⟨{ s.st with p9out := c },
           s.trace ++ [Event.writeP9 c, Event.delay 100,
             Event.sample (Get_PMOD_SWT_Status (env s.idx))],
           s.idx + 1⟩ (by omega) hn
        refine ⟨m + 1, by omega, by omega, ?_⟩
        rw [heq, Sys.mk.injEq]
        have he : evBlocks (fun k => [Event.writeP9 (c + 1 + k), Event.delay 100,
              Event.sample (Get_PMOD_SWT_Status (env (s.idx + 1 + k)))]) m
            = evBlocks (fun k => [Event.writeP9 (c + (k + 1)), Event.delay 100,
              Event.sample (Get_PMOD_SWT_Status (env (s.idx + (k + 1))))]) m :=
          evBlocks_congr m _ _ (fun k hk => by
            rw [Nat.add_assoc c 1 k, Nat.add_comm 1 k,
              Nat.add_assoc s.idx 1 k, Nat.add_comm 1 k])
        refine ⟨?_, ?_, by show s.idx + 1 + m = s.idx + (m + 1); omega⟩
        · have : c + 1 + m - 1 = c + (m + 1) - 1 := by omega
          rw [this]
        · rw [he]
          simp [evBlocks, List.append_assoc]

theorem pattern3Loop_step (env : Nat → Nat) (c : Nat) (s : Sys) :
    pattern3Loop env c s =
      (if Get_PMOD_SWT_Status (env s.idx) ≠ 0x02 then
        ⟨{ s.st with p9out := c },
         s.trace ++ [Event.writeP9 c, Event.delay 100,
           Event.sample (Get_PMOD_SWT_Status (env s.idx))], s.idx + 1⟩
      else if c = 0 then
        ⟨{ s.st with p9out := c },
         s.trace ++ [Event.writeP9 c, Event.delay 100,
           Event.sample (Get_PMOD_SWT_Status (env s.idx))], s.idx + 1⟩
      else
        pattern3Loop env (c - 1)
          ⟨{ s.st with p9out := c },
           s.trace ++ [Event.writeP9 c, Event.delay 100,
             Event.sample (Get_PMOD_SWT_Status (env s.idx))], s.idx + 1⟩) := by
  rw [pattern3Loop]
  simp [pmodWrite, delayMs, swtSample, List.append_assoc]

/-- For any environment, the Pattern3 loop makes at least one and at
most `c + 1` iterations, counting down from `c`; every iteration emits
its output write and its delay before its single switch sample. -/
theorem pattern3Loop_shape (env : Nat → Nat) :
    ∀ c s, ∃ m, 0 < m ∧ m ≤ c + 1 ∧
      pattern3Loop env c s =
        ⟨{ s.st with p9out := c + 1 - m },
         s.trace ++ evBlocks (fun k => [Event.writeP9 (c - k), Event.delay 100,
           Event.sample (Get_PMOD_SWT_Status (env (s.idx + k)))]) m,
         s.idx + m⟩ := by
  intro c
  induction c with
  | zero =>
    intro s
    refine ⟨1, by omega, by omega, ?_⟩
    rw [pattern3Loop_step]
    by_cases hsw : Get_PMOD_SWT_Status (env s.idx) ≠ 0x02
    · rw [if_pos hsw]
      simp [evBlocks]
    · rw [if_neg hsw, if_pos rfl]
      simp [evBlocks]
  | succ c ih =>
    intro s
    rw [pattern3Loop_step]
    by_cases hsw : Get_PMOD_SWT_Status (env s.idx) ≠ 0x02
    · refine ⟨1, by omega, by omega, ?_⟩
      rw [if_pos hsw]
      simp [evBlocks]
    · rw [if_neg hsw, if_neg (Nat.succ_ne_zero c), Nat.add_sub_cancel]
      obtain ⟨m, hm0, hmc, heq⟩ := ih
        ⟨{ s.st with p9out := c + 1 },
         s.trace ++ [Event.writeP9 (c + 1), Event.delay 100,
           Event.sample (Get_PMOD_SWT_Status (env s.idx))],
         s.idx + 1⟩
      refine ⟨m + 1, by omega, by omega, ?_⟩
      rw [heq, Sys.mk.injEq]
      have he : evBlocks (fun k => [Event.writeP9 (c - k), Event.delay 100,
            Event.sample (Get_PMOD_SWT_Status (env (s.idx + 1 + k)))]) m
          = evBlocks (fun k => [Event.writeP9 (c + 1 - (k + 1)), Event.delay 100,
            Event.sample (Get_PMOD_SWT_Status (env (s.idx + (k + 1))))]) m :=
        evBlocks_congr m _ _ (fun k hk => by
          rw [Nat.succ_sub_succ, Nat.add_assoc s.idx 1 k, Nat.add_comm 1 k])
      refine ⟨?_, ?_, by show s.idx + 1 + m = s.idx + (m + 1); omega⟩
      · have : c + 1 - m = c + 1 + 1 - (m + 1) := by omega
        rw [this]
      · rw [he]
        simp [evBlocks, List.append_assoc]

theorem pattern5Loop_step (env : Nat → Nat) (c : Nat) (s : Sys)
    (h : 0 < c ∧ c ≤ 128) :
    pattern5Loop env c s =
      if Get_PMOD_SWT_Status (env s.idx) ≠ 0x08 then
        ⟨{ s.st with p9out := c },
         s.trace ++ [Event.writeP9 c, Event.delay 500,
           Event.sample (Get_PMOD_SWT_Status (env s.idx))], s.idx + 1⟩
      else
        pattern5Loop env (c * 2)
          ⟨{ s.st with p9out := c },
           s.trace ++ [Event.writeP9 c, Event.delay 500,
             Event.sample (Get_PMOD_SWT_Status (env s.idx))], s.idx + 1⟩ := by
  rw [pattern5Loop, dif_pos h]
  simp [pmodWrite, delayMs, swtSample, List.append_assoc]

theorem pattern5Loop_stop (env : Nat → Nat) (c : Nat) (s : Sys)
    (h : ¬ (0 < c ∧ c ≤ 128)) :
    pattern5Loop env c s = s := by
  rw [pattern5Loop, dif_neg h]

/-- When every resample reads switch code 0x08, the Pattern5 loop runs
to its bound: starting at `led_count = 2 ^ t` with `n = 8 - t` steps
remaining, it emits one write/delay/sample block per remaining bit
position and consumes exactly `n` resamples. -/
theorem pattern5Loop_run (env : Nat → Nat) (h : ∀ k, Get_PMOD_SWT_Status (env k) = 0x08) :
    ∀ n t s, t + n = 8 → 0 < n →
    pattern5Loop env (2 ^ t) s =
      ⟨{ s.st with p9out := 0x80 },
       s.trace ++ evBlocks (fun k =>
         [Event.writeP9 (2 ^ (t + k)), Event.delay 500, Event.sample 0x08]) n,
       s.idx + n⟩ := by
  intro n
  induction n with
  | zero => intro t s ht hn; omega
  | succ n ih =>
    intro t s ht _
    have hg : 0 < 2 ^ t ∧ 2 ^ t ≤ 128 := by
      refine ⟨Nat.pos_pow_of_pos t (by norm_num), ?_⟩
      calc 2 ^ t ≤ 2 ^ 7 := Nat.pow_le_pow_right (by norm_num) (by omega)
      _ = 128 := by norm_num
    rw [pattern5Loop_step env (2 ^ t) s hg, h s.idx]
    simp only [ne_eq, not_true_eq_false, if_false]
    rw [show 2 ^ t * 2 = 2 ^ (t + 1) from (pow_succ 2 t).symm]
    rcases Nat.eq_zero_or_pos n with rfl | hn
    · have ht7 : t = 7 := by omega
      subst ht7
      rw [pattern5Loop_stop env (2 ^ 8) _ (by norm_num)]
      simp [evBlocks]
    · rw [ih (t + 1) ⟨{ s.st with p9out := 2 ^ t },
        s.trace ++ [Event.writeP9 (2 ^ t), Event.delay 500, Event.sample 0x08],
        s.idx + 1⟩ (by omega) hn]
      rw [Sys.mk.injEq]
      have he : evBlocks (fun k =>
            [Event.writeP9 (2 ^ (t + 1 + k)), Event.delay 500, Event.sample 0x08]) n
          = evBlocks (fun k =>
            [Event.writeP9 (2 ^ (t + (k + 1))), Event.delay 500, Event.sample 0x08]) n :=
        evBlocks_congr n _ _ (fun k hk => by
          rw [Nat.add_assoc t 1 k, Nat.add_comm 1 k])
      refine ⟨rfl, ?_, by show s.idx + 1 + n = s.idx + (n + 1); omega⟩
      rw [he]
      simp [evBlocks, List.append_assoc]

/-- If the first `j` resamples read 0x08 and the `j`-th one (0-indexed)
does not, the Pattern5 loop returns right after the step in which that
resample occurred: `j + 1` blocks, `j + 1` resamples consumed. -/
theorem pattern5Loop_early (env : Nat → Nat) :
    ∀ j t s, t + j ≤ 7 →
    (∀ k, k < j → Get_PMOD_SWT_Status (env (s.idx + k)) = 0x08) →
    Get_PMOD_SWT_Status (env (s.idx + j)) ≠ 0x08 →
    pattern5Loop env (2 ^ t) s =
      ⟨{ s.st with p9out := 2 ^ (t + j) },
       s.trace ++ evBlocks (fun k => [Event.writeP9 (2 ^ (t + k)), Event.delay 500,
         Event.sample (Get_PMOD_SWT_Status (env (s.idx + k)))]) (j + 1),
       s.idx + (j + 1)⟩ := by
  intro j
  induction j with
  | zero =>
    intro t s ht hgood hbad
    have hg : 0 < 2 ^ t ∧ 2 ^ t ≤ 128 := by
      refine ⟨Nat.pos_pow_of_pos t (by norm_num), ?_⟩
      calc 2 ^ t ≤ 2 ^ 7 := Nat.pow_le_pow_right (by norm_num) (by omega)
      _ = 128 := by norm_num
    rw [Nat.add_zero] at hbad
    rw [pattern5Loop_step env (2 ^ t) s hg, if_pos hbad]
    simp [evBlocks]
  | succ j ih =>
    intro t s ht hgood hbad
    have hg : 0 < 2 ^ t ∧ 2 ^ t ≤ 128 := by
      refine ⟨Nat.pos_pow_of_pos t (by norm_num), ?_⟩
      calc 2 ^ t ≤ 2 ^ 7 := Nat.pow_le_pow_right (by norm_num) (by omega)
      _ = 128 := by norm_num
    have h0 : Get_PMOD_SWT_Status (env s.idx) = 0x08 := by
      have := hgood 0 (Nat.succ_pos j)
      rwa [Nat.add_zero] at this
    rw [pattern5Loop_step env (2 ^ t) s hg, h0]
    simp only [ne_eq, not_true_eq_false, if_false]
    rw [show 2 ^ t * 2 = 2 ^ (t + 1) from (pow_succ 2 t).symm]
    rw [ih (t + 1) ⟨{ s.st with p9out := 2 ^ t },
        s.trace ++ [Event.writeP9 (2 ^ t), Event.delay 500, Event.sample 0x08],
        s.idx + 1⟩ (by omega)
      (fun k hk => by
        have := hgood (k + 1) (by omega)
        show Get_PMOD_SWT_Status (env (s.idx + 1 + k)) = 0x08
        rwa [Nat.add_assoc s.idx 1 k, Nat.add_comm 1 k])
      (by
        show Get_PMOD_SWT_Status (env (s.idx + 1 + j)) ≠ 0x08
        rw [Nat.add_assoc s.idx 1 j, Nat.add_comm 1 j]
        exact hbad)]
    rw [Sys.mk.injEq]
    have he : evBlocks (fun k => [Event.writeP9 (2 ^ (t + 1 + k)), Event.delay 500,
          Event.sample (Get_PMOD_SWT_Status (env (s.idx + 1 + k)))]) (j + 1)
        = evBlocks (fun k => [Event.writeP9 (2 ^ (t + (k + 1))), Event.delay 500,
          Event.sample (Get_PMOD_SWT_Status (env (s.idx + (k + 1))))]) (j + 1) :=
      evBlocks_congr (j + 1) _ _ (fun k hk => by
        rw [Nat.add_assoc t 1 k, Nat.add_comm 1 k,
          Nat.add_assoc s.idx 1 k, Nat.add_comm 1 k])
    refine ⟨?_, ?_, by show s.idx + 1 + (j + 1) = s.idx + (j + 1 + 1); omega⟩
    · have : t + 1 + j = t + (j + 1) := by omega
      rw [this]
    · rw [he]
      have h0' : Get_PMOD_SWT_Status (env (s.idx + 0)) = 0x08 := by
        rwa [Nat.add_zero]
      simp [evBlocks, List.append_assoc, h0', h0]

/-- C6's form for Pattern5: at least one and at most `n` full blocks for
any environment. -/
theorem pattern5Loop_shape (env : Nat → Nat) :
    ∀ n t s, t + n = 8 → 0 < n →
    ∃ m, 0 < m ∧ m ≤ n ∧
      pattern5Loop env (2 ^ t) s =
        ⟨{ s.st with p9out := 2 ^ (t + m - 1) },
         s.trace ++ evBlocks (fun k => [Event.writeP9 (2 ^ (t + k)), Event.delay 500,
           Event.sample (Get_PMOD_SWT_Status (env (s.idx + k)))]) m,
         s.idx + m⟩ := by
  intro n
  induction n with
  | zero => intro t s ht hn; omega
  | succ n ih =>
    intro t s ht _
    have hg : 0 < 2 ^ t ∧ 2 ^ t ≤ 128 := by
      refine ⟨Nat.pos_pow_of_pos t (by norm_num), ?_⟩
      calc 2 ^ t ≤ 2 ^ 7 := Nat.pow_le_pow_right (by norm_num) (by omega)
      _ = 128 := by norm_num
    rw [pattern5Loop_step env (2 ^ t) s hg]
    by_cases hsw : Get_PMOD_SWT_Status (env s.idx) ≠ 0x08
    · refine ⟨1, by omega, by omega, ?_⟩
      rw [if_pos hsw]
      simp [evBlocks]
    · rw [if_neg hsw]
      rw [show 2 ^ t * 2 = 2 ^ (t + 1) from (pow_succ 2 t).symm]
      rcases Nat.eq_zero_or_pos n with rfl | hn
      · refine ⟨1, by omega, by omega, ?_⟩
        have ht7 : t = 7 := by omega
        subst ht7
        rw [pattern5Loop_stop env (2 ^ 8) _ (by norm_num)]
        simp [evBlocks]
      · obtain ⟨m, hm0, hmn, heq⟩ := ih (t + 1)
          ⟨{ s.st with p9out := 2 ^ t },
           s.trace ++ [Event.writeP9 (2 ^ t), Event.delay 500,
             Event.sample (Get_PMOD_SWT_Status (env s.idx))],
           s.idx + 1⟩ (by omega) hn
        refine ⟨m + 1, by omega, by omega, ?_⟩
        rw [heq, Sys.mk.injEq]
        have he : evBlocks (fun k => [Event.writeP9 (2 ^ (t + 1 + k)), Event.delay 500,
              Event.sample (Get_PMOD_SWT_Status (env (s.idx + 1 + k)))]) m
            = evBlocks (fun k => [Event.writeP9 (2 ^ (t + (k + 1))), Event.delay 500,
              Event.sample (Get_PMOD_SWT_Status (env (s.idx + (k + 1))))]) m :=
          evBlocks_congr m _ _ (fun k hk => by
            rw [Nat.add_assoc t 1 k, Nat.add_comm 1 k,
              Nat.add_assoc s.idx 1 k, Nat.add_comm 1 k])
        refine ⟨?_, ?_, by show s.idx + 1 + m = s.idx + (m + 1); omega⟩
        · have : t + 1 + m - 1 = t + (m + 1) - 1 := by omega
          rw [this]
        · rw [he]
          simp [evBlocks, List.append_assoc]

theorem pattern4Loop_step (env : Nat → Nat) (fuel : Nat) (s : Sys) :
    pattern4Loop env (fuel + 1) s =
      (if Get_PMOD_SWT_Status (env s.idx) ≠ 0x04 then
        some ⟨⟨s.st.p1out &&& 0xFE, s.st.p2out &&& 0xF8, 0x00⟩,
          s.trace ++ [Event.writeP9 0xFF,
            Event.writeP1 ((s.st.p1out &&& 0xFE) ||| 0x01),
            Event.writeP2 ((s.st.p2out &&& 0xF8) ||| 0x04),
            Event.delay 1000,
            Event.writeP9 0x00,
            Event.writeP1 (s.st.p1out &&& 0xFE),
            Event.writeP2 (s.st.p2out &&& 0xF8),
            Event.delay 1000,
            Event.sample (Get_PMOD_SWT_Status (env s.idx))], s.idx + 1⟩
      else
        pattern4Loop env fuel
          ⟨⟨s.st.p1out &&& 0xFE, s.st.p2out &&& 0xF8, 0x00⟩,
          s.trace ++ [Event.writeP9 0xFF,
            Event.writeP1 ((s.st.p1out &&& 0xFE) ||| 0x01),
            Event.writeP2 ((s.st.p2out &&& 0xF8) ||| 0x04),
            Event.delay 1000,
            Event.writeP9 0x00,
            Event.writeP1 (s.st.p1out &&& 0xFE),
            Event.writeP2 (s.st.p2out &&& 0xF8),
            Event.delay 1000,
            Event.sample (Get_PMOD_SWT_Status (env s.idx))], s.idx + 1⟩) := by
  simp [pattern4Loop, pmodWrite, led1Write, led2Write, delayMs, swtSample,
    LED1_Output, LED2_Output, RED_LED_ON, RED_LED_OFF, RGB_LED_BLUE, RGB_LED_OFF,
    PMOD_8LD_ALL_ON, PMOD_8LD_ALL_OFF, and_fe_or_one, and_f8_or_four,
    List.append_assoc]

/-- For any environment, `pattern4Loop` either exhausts its fuel or
returns after `m` complete on/off cycles: each cycle emits a full
on-phase (writes, 1 s hold) and off-phase (writes, 1 s hold) before its
single switch sample. -/
theorem pattern4Loop_shape (env : Nat → Nat) :
    ∀ fuel s r, pattern4Loop env fuel s = some r →
    ∃ m, 0 < m ∧ m ≤ fuel ∧
      r = ⟨⟨s.st.p1out &&& 0xFE, s.st.p2out &&& 0xF8, 0x00⟩,
        s.trace ++ evBlocks (fun k => [Event.writeP9 0xFF,
          Event.writeP1 ((s.st.p1out &&& 0xFE) ||| 0x01),
          Event.writeP2 ((s.st.p2out &&& 0xF8) ||| 0x04),
          Event.delay 1000,
          Event.writeP9 0x00,
          Event.writeP1 (s.st.p1out &&& 0xFE),
          Event.writeP2 (s.st.p2out &&& 0xF8),
          Event.delay 1000,
          Event.sample (Get_PMOD_SWT_Status (env (s.idx + k)))]) m,
        s.idx + m⟩ := by
  intro fuel
  induction fuel with
  | zero => intro s r h; exact absurd h (by simp [pattern4Loop])
  | succ fuel ih =>
    intro s r h
    rw [pattern4Loop_step] at h
    by_cases hsw : Get_PMOD_SWT_Status (env s.idx) ≠ 0x04
    · rw [if_pos hsw, Option.some.injEq] at h
      refine ⟨1, by omega, by omega, ?_⟩
      rw [← h]
      simp [evBlocks]
    · rw [if_neg hsw] at h
      obtain ⟨m, hm0, hmf, hr⟩ := ih _ r h
      refine ⟨m + 1, by omega, by omega, ?_⟩
      rw [hr, Sys.mk.injEq]
      have he : evBlocks (fun k => [Event.writeP9 0xFF,
            Event.writeP1 (((s.st.p1out &&& 0xFE) &&& 0xFE) ||| 0x01),
            Event.writeP2 (((s.st.p2out &&& 0xF8) &&& 0xF8) ||| 0x04),
            Event.delay 1000,
            Event.writeP9 0x00,
            Event.writeP1 ((s.st.p1out &&& 0xFE) &&& 0xFE),
            Event.writeP2 ((s.st.p2out &&& 0xF8) &&& 0xF8),
            Event.delay 1000,
            Event.sample (Get_PMOD_SWT_Status (env (s.idx + 1 + k)))]) m
          = evBlocks (fun k => [Event.writeP9 0xFF,
            Event.writeP1 ((s.st.p1out &&& 0xFE) ||| 0x01),
            Event.writeP2 ((s.st.p2out &&& 0xF8) ||| 0x04),
            Event.delay 1000,
            Event.writeP9 0x00,
            Event.writeP1 (s.st.p1out &&& 0xFE),
            Event.writeP2 (s.st.p2out &&& 0xF8),
            Event.delay 1000,
            Event.sample (Get_PMOD_SWT_Status (env (s.idx + (k + 1))))]) m :=
        evBlocks_congr m _ _ (fun k hk => by
          rw [and_fe_and_fe, and_f8_and_f8,
            Nat.add_assoc s.idx 1 k, Nat.add_comm 1 k])
      refine ⟨?_, ?_, by show s.idx + 1 + m = s.idx + (m + 1); omega⟩
      · rw [GpioState.mk.injEq]
        exact ⟨and_fe_and_fe _, and_f8_and_f8 _, rfl⟩
      · rw [he]
        simp [evBlocks, List.append_assoc]

/-! ### Claim theorems -/

/-- C1: for every switch-state code outside {0x00, 0x01, 0x02, 0x04,
0x08}, `LED_Controller` invokes `LED_Pattern_1` with the sampled button
code (the `default` case), and each code in that set dispatches to
exactly the corresponding one of Pattern1..Pattern5. -/
theorem claim1_controller_dispatch (b sw : Nat) (env : Nat → Nat) (fuel : Nat) (s : Sys)
    (h : sw ≠ 0x00 ∧ sw ≠ 0x01 ∧ sw ≠ 0x02 ∧ sw ≠ 0x04 ∧ sw ≠ 0x08) :
    LED_Controller b sw env fuel s = some (LED_Pattern_1 b s) ∧
    LED_Controller b 0x00 env fuel s = some (LED_Pattern_1 b s) ∧
    LED_Controller b 0x01 env fuel s = some (LED_Pattern_2 env s) ∧
    LED_Controller b 0x02 env fuel s = some (LED_Pattern_3 env s) ∧
    LED_Controller b 0x04 env fuel s = LED_Pattern_4 env fuel s ∧
    LED_Controller b 0x08 env fuel s = some (LED_Pattern_5 env s) := by
  obtain ⟨h0, h1, h2, h4, h8⟩ := h
  refine ⟨?_, rfl, rfl, rfl, rfl, rfl⟩
  simp [LED_Controller, h0, h1, h2, h4, h8]

/-- C1 witness, at the multi-bit switch code 0x03. -/
theorem claim1_controller_dispatch_witness :
    LED_Controller 0x12 0x03 (fun _ => 0) 1 initSys = some (LED_Pattern_1 0x12 initSys) ∧
    LED_Controller 0x12 0x00 (fun _ => 0) 1 initSys = some (LED_Pattern_1 0x12 initSys) ∧
    LED_Controller 0x12 0x01 (fun _ => 0) 1 initSys = some (LED_Pattern_2 (fun _ => 0) initSys) ∧
    LED_Controller 0x12 0x02 (fun _ => 0) 1 initSys = some (LED_Pattern_3 (fun _ => 0) initSys) ∧
    LED_Controller 0x12 0x04 (fun _ => 0) 1 initSys = LED_Pattern_4 (fun _ => 0) 1 initSys ∧
    LED_Controller 0x12 0x08 (fun _ => 0) 1 initSys = some (LED_Pattern_5 (fun _ => 0) initSys) :=
  claim1_controller_dispatch 0x12 0x03 (fun _ => 0) 1 initSys (by decide)

/-- C2: if every in-loop resample reads switch code 0x01, `LED_Pattern_2`
writes 0, 1, ..., 255 to the 8-LED bank, one write per step with a
100 ms delay after each write, and returns after the 256th write because
the loop bound is reached: all 256 iterations complete and all 256
resamples are consumed, so no switch cancellation occurred. -/
theorem claim2_pattern2_full_run (env : Nat → Nat) (s : Sys)
    (h : ∀ k, Get_PMOD_SWT_Status (env k) = 0x01) :
    LED_Pattern_2 env s =
      ⟨⟨(s.st.p1out &&& 0xFE) ||| 0x01, (s.st.p2out &&& 0xF8) ||| 0x01, 0xFF⟩,
       s.trace ++ [Event.writeP1 ((s.st.p1out &&& 0xFE) ||| 0x01),
         Event.writeP2 ((s.st.p2out &&& 0xF8) ||| 0x01)]
         ++ evBlocks (fun k =>
           [Event.writeP9 k, Event.delay 100, Event.sample 0x01]) 0x100,
       s.idx + 0x100⟩ := by
  show pattern2Loop env 0 (led2Write RGB_LED_RED (led1Write RED_LED_ON s)) = _
  rw [pattern2Loop_run env h 0x100 0 _ (by omega) (by omega)]
  rw [Sys.mk.injEq]
  refine ⟨?_, ?_, ?_⟩ <;>
    simp [led1Write, led2Write, LED1_Output, LED2_Output, RED_LED_ON,
      RGB_LED_RED, List.append_assoc]

/-- C2 witness: the environment constantly reading 0x01, from the zero
machine. -/
theorem claim2_pattern2_full_run_witness :
    LED_Pattern_2 (fun _ => 0x01) initSys =
      ⟨⟨(initSys.st.p1out &&& 0xFE) ||| 0x01, (initSys.st.p2out &&& 0xF8) ||| 0x01, 0xFF⟩,
       initSys.trace ++ [Event.writeP1 ((initSys.st.p1out &&& 0xFE) ||| 0x01),
         Event.writeP2 ((initSys.st.p2out &&& 0xF8) ||| 0x01)]
         ++ evBlocks (fun k =>
           [Event.writeP9 k, Event.delay 100, Event.sample 0x01]) 0x100,
       initSys.idx + 0x100⟩ :=
  by
  refine claim2_pattern2_full_run (fun _ => 0x01) initSys (fun k => ?_)
  show Get_PMOD_SWT_Status 0x01 = 0x01
  decide

/-- C5: if every in-loop resample reads switch code 0x08, `LED_Pattern_5`
writes 1, 2, 4, ..., 128 to the 8-LED bank with a 500 ms delay after
each write and returns after 8 steps; and if the resamples read 0x08 up
to but not including the `j`-th one, the routine returns right after the
step in which that resample occurred (`j + 1` steps, `j + 1` resamples). -/
theorem claim5_pattern5_runs (env1 env2 : Nat → Nat) (s1 s2 : Sys) (j : Nat)
    (h1 : ∀ k, Get_PMOD_SWT_Status (env1 k) = 0x08)
    (hj : j ≤ 7)
    (h2good : ∀ k, k < j → Get_PMOD_SWT_Status (env2 (s2.idx + k)) = 0x08)
    (h2bad : Get_PMOD_SWT_Status (env2 (s2.idx + j)) ≠ 0x08) :
    LED_Pattern_5 env1 s1 =
      ⟨⟨s1.st.p1out &&& 0xFE, s1.st.p2out &&& 0xF8, 0x80⟩,
       s1.trace ++ [Event.writeP1 (s1.st.p1out &&& 0xFE),
         Event.writeP2 (s1.st.p2out &&& 0xF8)]
         ++ evBlocks (fun k =>
           [Event.writeP9 (2 ^ k), Event.delay 500, Event.sample 0x08]) 8,
       s1.idx + 8⟩ ∧
    LED_Pattern_5 env2 s2 =
      ⟨⟨s2.st.p1out &&& 0xFE, s2.st.p2out &&& 0xF8, 2 ^ j⟩,
       s2.trace ++ [Event.writeP1 (s2.st.p1out &&& 0xFE),
         Event.writeP2 (s2.st.p2out &&& 0xF8)]
         ++ evBlocks (fun k => [Event.writeP9 (2 ^ k), Event.delay 500,
           Event.sample (Get_PMOD_SWT_Status (env2 (s2.idx + k)))]) (j + 1),
       s2.idx + (j + 1)⟩ := by
  constructor
  · show pattern5Loop env1 (2 ^ 0) (led2Write RGB_LED_OFF (led1Write RED_LED_OFF s1)) = _
    rw [pattern5Loop_run env1 h1 8 0 _ (by omega) (by omega)]
    rw [Sys.mk.injEq]
    refine ⟨?_, ?_, ?_⟩ <;>
      simp [led1Write, led2Write, LED1_Output, LED2_Output, RED_LED_OFF,
        RGB_LED_OFF, List.append_assoc]
  · show pattern5Loop env2 (2 ^ 0) (led2Write RGB_LED_OFF (led1Write RED_LED_OFF s2)) = _
    rw [pattern5Loop_early env2 j 0 (led2Write RGB_LED_OFF (led1Write RED_LED_OFF s2))
      (by omega) h2good h2bad]
    rw [Sys.mk.injEq]
    refine ⟨?_, ?_, ?_⟩ <;>
      simp [led1Write, led2Write, LED1_Output, LED2_Output, RED_LED_OFF,
        RGB_LED_OFF, List.append_assoc]

/-- C5 witness: one environment constantly reading 0x08; another whose
first two resamples read 0x08 and whose third reads 0x00 (`j = 2`). -/
theorem claim5_pattern5_runs_witness :
    LED_Pattern_5 (fun _ => 0x08) initSys =
      ⟨⟨initSys.st.p1out &&& 0xFE, initSys.st.p2out &&& 0xF8, 0x80⟩,
       initSys.trace ++ [Event.writeP1 (initSys.st.p1out &&& 0xFE),
         Event.writeP2 (initSys.st.p2out &&& 0xF8)]
         ++ evBlocks (fun k =>
           [Event.writeP9 (2 ^ k), Event.delay 500, Event.sample 0x08]) 8,
       initSys.idx + 8⟩ ∧
    LED_Pattern_5 (fun k => if k < 2 then 0x08 else 0x00) initSys =
      ⟨⟨initSys.st.p1out &&& 0xFE, initSys.st.p2out &&& 0xF8, 2 ^ 2⟩,
       initSys.trace ++ [Event.writeP1 (initSys.st.p1out &&& 0xFE),
         Event.writeP2 (initSys.st.p2out &&& 0xF8)]
         ++ evBlocks (fun k => [Event.writeP9 (2 ^ k), Event.delay 500,
           Event.sample (Get_PMOD_SWT_Status
             ((fun k => if k < 2 then 0x08 else 0x00) (initSys.idx + k)))]) (2 + 1),
       initSys.idx + (2 + 1)⟩ :=
  by
  refine claim5_pattern5_runs (fun _ => 0x08) (fun k => if k < 2 then 0x08 else 0x00)
    initSys initSys 2 (fun k => ?_) (by decide) (fun k hk => ?_) ?_
  · show Get_PMOD_SWT_Status 0x08 = 0x08
    decide
  · interval_cases k
    · show Get_PMOD_SWT_Status 0x08 = 0x08
      decide
    · show Get_PMOD_SWT_Status 0x08 = 0x08
      decide
  · show Get_PMOD_SWT_Status 0x00 ≠ 0x08
    decide

/-- C6: in every inner iteration of Patterns 2, 3, 4 and 5 the switch
code is sampled and tested exactly once, and only after the iteration's
output writes and delay have been emitted: each run is a preamble plus
`m ≥ 1` complete write/delay/sample blocks (a full on/off cycle per
block for Pattern4), so at least one output write precedes any
cancellation, and exactly one resample is consumed per iteration. -/
theorem claim6_sample_once_after_effect (env : Nat → Nat) (fuel : Nat) (s : Sys) :
    (∃ m, 0 < m ∧ m ≤ 0x100 ∧
      (LED_Pattern_2 env s).trace =
        s.trace ++ [Event.writeP1 ((s.st.p1out &&& 0xFE) ||| 0x01),
          Event.writeP2 ((s.st.p2out &&& 0xF8) ||| 0x01)]
          ++ evBlocks (fun k => [Event.writeP9 k, Event.delay 100,
            Event.sample (Get_PMOD_SWT_Status (env (s.idx + k)))]) m ∧
      (LED_Pattern_2 env s).idx = s.idx + m) ∧
    (∃ m, 0 < m ∧ m ≤ 0x100 ∧
      (LED_Pattern_3 env s).trace =
        s.trace ++ [Event.writeP1 (s.st.p1out &&& 0xFE),
          Event.writeP2 ((s.st.p2out &&& 0xF8) ||| 0x04)]
          ++ evBlocks (fun k => [Event.writeP9 (0xFF - k), Event.delay 100,
            Event.sample (Get_PMOD_SWT_Status (env (s.idx + k)))]) m ∧
      (LED_Pattern_3 env s).idx = s.idx + m) ∧
    (∀ r, LED_Pattern_4 env fuel s = some r →
      ∃ m, 0 < m ∧ m ≤ fuel ∧
        r.trace = s.trace ++ evBlocks (fun k => [Event.writeP9 0xFF,
          Event.writeP1 ((s.st.p1out &&& 0xFE) ||| 0x01),
          Event.writeP2 ((s.st.p2out &&& 0xF8) ||| 0x04),
          Event.delay 1000,
          Event.writeP9 0x00,
          Event.writeP1 (s.st.p1out &&& 0xFE),
          Event.writeP2 (s.st.p2out &&& 0xF8),
          Event.delay 1000,
          Event.sample (Get_PMOD_SWT_Status (env (s.idx + k)))]) m ∧
        r.idx = s.idx + m) ∧
    (∃ m, 0 < m ∧ m ≤ 8 ∧
      (LED_Pattern_5 env s).trace =
        s.trace ++ [Event.writeP1 (s.st.p1out &&& 0xFE),
          Event.writeP2 (s.st.p2out &&& 0xF8)]
          ++ evBlocks (fun k => [Event.writeP9 (2 ^ k), Event.delay 500,
            Event.sample (Get_PMOD_SWT_Status (env (s.idx + k)))]) m ∧
      (LED_Pattern_5 env s).idx = s.idx + m) := by
  refine ⟨?_, ?_, ?_, ?_⟩
  · obtain ⟨m, hm0, hmn, heq⟩ := pattern2Loop_shape env 0x100 0
      (led2Write RGB_LED_RED (led1Write RED_LED_ON s)) (by omega) (by omega)
    have hL : LED_Pattern_2 env s
        = pattern2Loop env 0 (led2Write RGB_LED_RED (led1Write RED_LED_ON s)) := rfl
    refine ⟨m, hm0, hmn, ?_, ?_⟩ <;>
      rw [hL, heq] <;>
      simp [led1Write, led2Write, LED1_Output, LED2_Output, RED_LED_ON,
        RGB_LED_RED, List.append_assoc]
  · obtain ⟨m, hm0, hmn, heq⟩ := pattern3Loop_shape env 0xFF
      (led2Write RGB_LED_BLUE (led1Write RED_LED_OFF s))
    have hL : LED_Pattern_3 env s
        = pattern3Loop env 0xFF (led2Write RGB_LED_BLUE (led1Write RED_LED_OFF s)) := rfl
    refine ⟨m, hm0, by omega, ?_, ?_⟩ <;>
      rw [hL, heq] <;>
      simp [led1Write, led2Write, LED1_Output, LED2_Output, RED_LED_OFF,
        RGB_LED_BLUE, List.append_assoc]
  · intro r hr
    obtain ⟨m, hm0, hmf, hq⟩ := pattern4Loop_shape env fuel s r hr
    refine ⟨m, hm0, hmf, ?_, ?_⟩ <;> rw [hq]
  · obtain ⟨m, hm0, hmn, heq⟩ := pattern5Loop_shape env 8 0
      (led2Write RGB_LED_OFF (led1Write RED_LED_OFF s)) (by omega) (by omega)
    have hL : LED_Pattern_5 env s
        = pattern5Loop env (2 ^ 0) (led2Write RGB_LED_OFF (led1Write RED_LED_OFF s)) := rfl
    refine ⟨m, hm0, hmn, ?_, ?_⟩ <;>
      rw [hL, heq] <;>
      simp [led1Write, led2Write, LED1_Output, LED2_Output, RED_LED_OFF,
        RGB_LED_OFF, List.append_assoc]

/-- C10: before its first write to the 8-LED output bank, `LED_Pattern_2`
turns the onboard LED on and sets the tri-color LED to the red code
(0x01), whatever the switch environment reads; and since the loop only
writes the bank register, those settings still hold when the routine
returns. -/
theorem claim10_pattern2_preamble (env : Nat → Nat) (s : Sys) :
    (∃ rest, (LED_Pattern_2 env s).trace =
      s.trace ++ [Event.writeP1 ((s.st.p1out &&& 0xFE) ||| 0x01),
        Event.writeP2 ((s.st.p2out &&& 0xF8) ||| 0x01)]
        ++ (Event.writeP9 0x00 :: rest)) ∧
    LED1_Status (LED_Pattern_2 env s).st.p1out = RED_LED_ON ∧
    LED2_Status (LED_Pattern_2 env s).st.p2out = RGB_LED_RED := by
  obtain ⟨m, hm0, hmn, heq⟩ := pattern2Loop_shape env 0x100 0
    (led2Write RGB_LED_RED (led1Write RED_LED_ON s)) (by omega) (by omega)
  have hL : LED_Pattern_2 env s
      = pattern2Loop env 0 (led2Write RGB_LED_RED (led1Write RED_LED_ON s)) := rfl
  obtain ⟨m', rfl⟩ : ∃ m', m = m' + 1 := ⟨m - 1, by omega⟩
  refine ⟨?_, ?_, ?_⟩
  · rw [hL, heq]
    simp only [led1Write, led2Write, LED1_Output, LED2_Output, RED_LED_ON,
      RGB_LED_RED, evBlocks, List.append_assoc, Nat.zero_add, Nat.add_zero,
      List.cons_append, List.nil_append, List.singleton_append]
    exact ⟨_, rfl⟩
  · rw [hL, heq]
    show LED1_Status (LED1_Output RED_LED_ON s.st.p1out) = RED_LED_ON
    exact led1_status_write s.st.p1out 0x01 (by decide)
  · rw [hL, heq]
    show LED2_Status (LED2_Output RGB_LED_RED
      (led1Write RED_LED_ON s).st.p2out) = RGB_LED_RED
    exact led2_status_write _ 0x01 (by decide)

/-- C3: with switch code 0x00 and button code 0x00 (both buttons
pressed, active-low), Pattern1 produces exactly one on/off blink — the
on writes, a 1000 ms hold, the off writes, a 1000 ms hold — and then
returns to the poll loop. -/
theorem claim3_pattern1_blink (env : Nat → Nat) (fuel : Nat) (s : Sys) :
    LED_Controller 0x00 0x00 env fuel s =
      some ⟨⟨s.st.p1out &&& 0xFE, s.st.p2out &&& 0xF8, 0x00⟩,
        s.trace ++ [Event.writeP9 0x00,
          Event.writeP1 ((s.st.p1out &&& 0xFE) ||| 0x01),
          Event.writeP2 ((s.st.p2out &&& 0xF8) ||| 0x02),
          Event.delay 1000,
          Event.writeP1 (s.st.p1out &&& 0xFE),
          Event.writeP2 (s.st.p2out &&& 0xF8),
          Event.delay 1000],
        s.idx⟩ := by
  show some (LED_Pattern_1 0x00 s) = _
  simp [LED_Pattern_1, pmodWrite, led1Write, led2Write, delayMs,
    LED1_Output, LED2_Output, RED_LED_ON, RED_LED_OFF, RGB_LED_GREEN,
    RGB_LED_OFF, PMOD_8LD_ALL_OFF, and_fe_or_one, and_f8_or_two]

/-- C4: with switch code 0x00 and button code 0x02, Pattern1 leaves the
8-LED output bank at 0xAA and the tri-color field at the pink code,
which is the R+B bit combination 0x05. -/
theorem claim4_pattern1_pink (env : Nat → Nat) (fuel : Nat) (s : Sys) :
    LED_Controller 0x02 0x00 env fuel s =
      some ⟨⟨s.st.p1out &&& 0xFE, (s.st.p2out &&& 0xF8) ||| RGB_LED_PINK, 0xAA⟩,
        s.trace ++ [Event.writeP1 (s.st.p1out &&& 0xFE),
          Event.writeP2 ((s.st.p2out &&& 0xF8) ||| RGB_LED_PINK),
          Event.writeP9 0xAA],
        s.idx⟩ ∧
    LED2_Status ((s.st.p2out &&& 0xF8) ||| RGB_LED_PINK) = RGB_LED_PINK ∧
    RGB_LED_PINK = RGB_LED_RED ||| RGB_LED_BLUE := by
  refine ⟨?_, led2_status_write _ _ (by decide), by decide⟩
  show some (LED_Pattern_1 0x02 s) = _
  simp [LED_Pattern_1, pmodWrite, led1Write, led2Write, delayMs,
    LED1_Output, LED2_Output, RED_LED_OFF, RGB_LED_PINK]

/-- C7: for every button-state code outside {0x00, 0x10, 0x02, 0x12},
`LED_Pattern_1` performs no output write and no delay: the machine is
returned exactly as it was. -/
theorem claim7_pattern1_silent (b : Nat) (s : Sys)
    (h : b ≠ 0x00 ∧ b ≠ 0x10 ∧ b ≠ 0x02 ∧ b ≠ 0x12) :
    LED_Pattern_1 b s = s := by
  obtain ⟨h0, h1, h2, h3⟩ := h
  simp [LED_Pattern_1, h0, h1, h2, h3]

/-- C7 witness, at the button code 0x01 (not a valid two-button code). -/
theorem claim7_pattern1_silent_witness : LED_Pattern_1 0x01 initSys = initSys :=
  claim7_pattern1_silent 0x01 initSys (by decide)

/-- C8: `LED_Controller` is deterministic: two invocations with the same
button and switch codes, the same starting register state, and
environments that agree on every in-loop switch resample produce the
same result (register state, trace of writes and delays, samples
consumed). -/
theorem claim8_controller_deterministic (b sw fuel : Nat) (st : GpioState)
    (env1 env2 : Nat → Nat) (h : ∀ k, env1 k = env2 k) :
    LED_Controller b sw env1 fuel ⟨st, [], 0⟩ =
      LED_Controller b sw env2 fuel ⟨st, [], 0⟩ := by
  rw [funext h]

/-- C8 witness. -/
theorem claim8_controller_deterministic_witness :
    LED_Controller 0x12 0x00 (fun _ => 0) 1 ⟨⟨0, 0, 0⟩, [], 0⟩ =
      LED_Controller 0x12 0x00 (fun k => 0 * k) 1 ⟨⟨0, 0, 0⟩, [], 0⟩ :=
  claim8_controller_deterministic 0x12 0x00 1 ⟨0, 0, 0⟩ _ _ (fun k => by simp)

/-- C9 as stated is false: `LED1_Output` called with the 8-bit argument
0x02 on a register holding 0x00 changes bit 1 of the register, not only
bit 0. -/
theorem claim9_counterexample :
    ¬ (Nat.testBit (LED1_Output 0x02 0x00) 1 = Nat.testBit 0x00 1) := by decide

/-- C9 amended: for every argument that fits the written field —
`LED1_Output` with an argument below 2, `LED2_Output` with an argument
below 8 — only bit 0 (respectively bits 0..2) of the 8-bit register is
modified; every other bit of the register is unchanged. -/
theorem claim9_output_frame (v1 old1 v2 old2 i j : Nat)
    (hv1 : v1 < 2) (ho1 : old1 < 256) (hi : i ≠ 0)
    (hv2 : v2 < 8) (ho2 : old2 < 256) (hj : 3 ≤ j) :
    Nat.testBit (LED1_Output v1 old1) i = Nat.testBit old1 i ∧
    Nat.testBit (LED2_Output v2 old2) j = Nat.testBit old2 j := by
  constructor
  · unfold LED1_Output
    rw [Nat.testBit_or, Nat.testBit_and]
    have h1i : 1 ≤ i := Nat.pos_of_ne_zero hi
    have hv : Nat.testBit v1 i = false := by
      apply Nat.testBit_lt_two_pow
      exact lt_of_lt_of_le hv1 (le_trans (by norm_num)
        (Nat.pow_le_pow_right (by norm_num) h1i))
    rcases Nat.lt_or_ge i 8 with hlt | hge
    · have hfe : Nat.testBit 0xFE i = true := by interval_cases i <;> decide
      rw [hfe, hv]
      simp
    · have h28 : (256 : Nat) ≤ 2 ^ i := le_trans (by norm_num)
        (Nat.pow_le_pow_right (by norm_num) hge)
      have ho : Nat.testBit old1 i = false :=
        Nat.testBit_lt_two_pow (lt_of_lt_of_le ho1 h28)
      have hfe : Nat.testBit 0xFE i = false :=
        Nat.testBit_lt_two_pow (lt_of_lt_of_le (by norm_num) h28)
      rw [hfe, hv, ho]
      simp
  · unfold LED2_Output
    rw [Nat.testBit_or, Nat.testBit_and]
    have hv : Nat.testBit v2 j = false := by
      apply Nat.testBit_lt_two_pow
      exact lt_of_lt_of_le hv2 (le_trans (by norm_num)
        (Nat.pow_le_pow_right (by norm_num) hj))
    rcases Nat.lt_or_ge j 8 with hlt | hge
    · have hf8 : Nat.testBit 0xF8 j = true := by interval_cases j <;> decide
      rw [hf8, hv]
      simp
    · have h28 : (256 : Nat) ≤ 2 ^ j := le_trans (by norm_num)
        (Nat.pow_le_pow_right (by norm_num) hge)
      have ho : Nat.testBit old2 j = false :=
        Nat.testBit_lt_two_pow (lt_of_lt_of_le ho2 h28)
      have hf8 : Nat.testBit 0xF8 j = false :=
        Nat.testBit_lt_two_pow (lt_of_lt_of_le (by norm_num) h28)
      rw [hf8, hv, ho]
      simp

/-- C9 witness: `LED1_Output 0x01` on register 0xAB leaves bit 3 alone,
`LED2_Output 0x05` on register 0xCD leaves bit 5 alone. -/
theorem claim9_output_frame_witness :
    Nat.testBit (LED1_Output 0x01 0xAB) 3 = Nat.testBit 0xAB 3 ∧
    Nat.testBit (LED2_Output 0x05 0xCD) 5 = Nat.testBit 0xCD 5 :=
  claim9_output_frame 0x01 0xAB 0x05 0xCD 3 5 (by decide) (by decide)
    (by decide) (by decide) (by decide) (by decide)

end Gpio
